import Mathlib

set_option maxHeartbeats 2000000
set_option maxRecDepth 8000

/-!
Shallow embedding of the Selective Repeat protocol implementation in
src/sr.c (sender side A and receiver side B).  Machine ints are modelled
as unbounded Int: every arithmetic operation performed by the code keeps
values far below 2^31, so C int arithmetic and Int agree on all runs we
reason about.  The C operator % is applied only to non-negative operands
in this code, where it agrees with Int emod.  Payloads are the 20-byte
char arrays of struct pkt, modelled as lists of Int of length 20.
Side effects (tolayer3, tolayer5, starttimer, stoptimer) are collected
in an explicit output structure, in call order per channel.
-/

/-- sr.c line 27: the maximum number of buffered unacked packets. -/
def WINDOWSIZE : Int := 6

/-- sr.c line 28: the sequence number space. -/
def SEQSPACE : Int := 7

/-- sr.c line 29: filler for header fields that are not being used. -/
def NOTINUSE : Int := -1

/-- struct pkt from emulator.h as used by sr.c. -/
structure Pkt where
  seqnum : Int
  acknum : Int
  payload : List Int
  checksum : Int
deriving DecidableEq, Repr

/-- A zero-filled struct pkt: the value of every static buffer slot
before anything is stored in it (C statics are zero-initialized).
Note that its acknum is 0, not NOTINUSE. -/
def zeroPkt : Pkt :=
  { seqnum := 0, acknum := 0, payload := List.replicate 20 0, checksum := 0 }

/-- sr.c lines 36-47: checksum = seqnum + acknum + sum of the 20 payload
bytes, accumulated left to right as in the C loop. -/
def ComputeChecksum (p : Pkt) : Int :=
  p.payload.foldl (fun a b => a + b) (p.seqnum + p.acknum)

/-- sr.c lines 49-55: returns -1 when the stored checksum matches the
recomputation (packet intact) and 0 when it does not (packet corrupted).
Callers apply the C operator ! to this value, which tests for 0. -/
def IsCorrupted (p : Pkt) : Int :=
  if p.checksum = ComputeChecksum p then -1 else 0

/-- The two-branch cyclic window membership test that sr.c repeats inline
in A_output (lines 75-76), A_input (lines 153-154) and B_input
(lines 297-298). -/
def inWindow (seqfirst seqlast x : Int) : Prop :=
  (seqfirst ≤ seqlast ∧ seqfirst ≤ x ∧ x ≤ seqlast) ∨
  (seqlast < seqfirst ∧ (seqfirst ≤ x ∨ x ≤ seqlast))

instance instDecidableInWindow (a b c : Int) : Decidable (inWindow a b c) := by
  unfold inWindow
  exact inferInstance

/-- Timer commands issued to the emulator (starttimer / stoptimer). -/
inductive TimerEv where
  | tstart
  | tstop
deriving DecidableEq, Repr

/-- The observable calls one entry point makes: packets handed to
tolayer3, payloads handed to tolayer5, timer commands, each in call
order. -/
structure SideEffects where
  sent3 : List Pkt
  delivered5 : List (List Int)
  timer : List TimerEv
deriving DecidableEq, Repr

def noEffects : SideEffects := { sent3 := [], delivered5 := [], timer := [] }

/-- Sender-side state of sr.c: the static variables at lines 60-63 plus
the statistics counters of the emulator that the sender updates. -/
structure SenderState where
  buffer : List Pkt
  windowfirst : Int
  windowlast : Int
  windowcount : Int
  A_nextseqnum : Int
  window_full : Int
  total_ACKs_received : Int
  new_ACKs : Int
  packets_resent : Int
deriving DecidableEq, Repr

/-- sr.c lines 82-86: the data packet A_output builds (checksum over
seqnum, acknum = NOTINUSE and the copied payload). -/
def A_mkpkt (seq : Int) (data : List Int) : Pkt :=
  let base : Pkt := { seqnum := seq, acknum := NOTINUSE, payload := data, checksum := 0 }
  { base with checksum := ComputeChecksum base }

/-- sr.c lines 66-117 (A_output). -/
def A_output (s : SenderState) (message : List Int) : SenderState × SideEffects :=
  let seqfirst := s.windowfirst
  let seqlast := (s.windowfirst + WINDOWSIZE - 1) % SEQSPACE
  if inWindow seqfirst seqlast s.A_nextseqnum then
    let sendpkt := A_mkpkt s.A_nextseqnum message
    let bufIndex : Int :=
      if s.A_nextseqnum ≥ s.windowfirst then s.A_nextseqnum - seqfirst
      else WINDOWSIZE - seqfirst + s.A_nextseqnum
    ({ s with
        buffer := s.buffer.set bufIndex.toNat sendpkt,
        windowcount := s.windowcount + 1,
        A_nextseqnum := (s.A_nextseqnum + 1) % SEQSPACE },
     { sent3 := [sendpkt], delivered5 := [],
       timer := if s.windowcount + 1 = 1 then [TimerEv.tstart] else [] })
  else
    ({ s with window_full := s.window_full + 1 }, noEffects)

/-- sr.c lines 156-160: buffer index computed by A_input for an ACK. -/
def A_ackIndex (seqfirst acknum : Int) : Int :=
  if acknum ≥ seqfirst then acknum - seqfirst
  else WINDOWSIZE - (seqfirst - acknum)

/-- sr.c lines 162-173: record a not-previously-seen ACK in the buffer
slot, decrement windowcount, count a new ACK; do nothing on a
duplicate. -/
def A_mark (s : SenderState) (packet : Pkt) : SenderState :=
  let index := (A_ackIndex s.windowfirst packet.acknum).toNat
  let slot := s.buffer.getD index zeroPkt
  if slot.acknum = NOTINUSE then
    { s with
        buffer := s.buffer.set index { slot with acknum := packet.acknum },
        windowcount := s.windowcount - 1,
        new_ACKs := s.new_ACKs + 1 }
  else s

/-- sr.c lines 176-182: the number of leading buffer slots whose acknum
differs from NOTINUSE (loop with break). -/
def slideCount : List Pkt → Nat
  | [] => 0
  | p :: rest => if p.acknum ≠ NOTINUSE then slideCount rest + 1 else 0

/-- sr.c lines 194-197: a vacated trailing slot keeps its seqnum and
checksum, gets acknum = NOTINUSE and a zeroed payload (memset). -/
def clearSlot (p : Pkt) : Pkt :=
  { p with acknum := NOTINUSE, payload := List.replicate 20 0 }

/-- sr.c lines 188-197: shift the buffer left by slide positions and
clear the vacated trailing slots. -/
def slideBuffer (buf : List Pkt) (slide : Nat) : List Pkt :=
  buf.drop slide ++ (buf.drop (buf.length - slide)).map clearSlot

/-- sr.c lines 176-203: the window slide attempt at the end of the
in-window branch of A_input, together with the timer commands
(stop, then start again only when windowcount is still positive). -/
def A_slide (s : SenderState) : SenderState × List TimerEv :=
  let slide := slideCount s.buffer
  if 0 < slide then
    ({ s with
        windowfirst := (s.windowfirst + (slide : Int)) % SEQSPACE,
        buffer := slideBuffer s.buffer slide },
     TimerEv.tstop :: (if 0 < s.windowcount then [TimerEv.tstart] else []))
  else (s, [])

/-- sr.c lines 139-210 (A_input).  The C guard is !IsCorrupted(packet),
which is true exactly when IsCorrupted returns 0. -/
def A_input (s : SenderState) (packet : Pkt) : SenderState × SideEffects :=
  if IsCorrupted packet = 0 then
    let s1 := { s with total_ACKs_received := s.total_ACKs_received + 1 }
    if inWindow s1.windowfirst ((s1.windowfirst + WINDOWSIZE - 1) % SEQSPACE) packet.acknum then
      let s2 := A_mark s1 packet
      let r := A_slide s2
      (r.1, { sent3 := [], delivered5 := [], timer := r.2 })
    else (s1, noEffects)
  else (s, noEffects)

/-- sr.c lines 214-229 (A_timerinterrupt). -/
def A_timerinterrupt (s : SenderState) : SenderState × SideEffects :=
  if 0 < s.windowcount then
    ({ s with packets_resent := s.packets_resent + 1 },
     { sent3 := [s.buffer.getD 0 zeroPkt], delivered5 := [],
       timer := [TimerEv.tstart] })
  else (s, noEffects)

/-- sr.c lines 233-243 (A_init) together with the zero initialization of
the static buffer and counters.  A_init itself touches only the four
scalar variables; in particular the buffer slots keep acknum = 0. -/
def A_init : SenderState :=
  { buffer := List.replicate 6 zeroPkt,
    windowfirst := 0, windowlast := -1, windowcount := 0, A_nextseqnum := 0,
    window_full := 0, total_ACKs_received := 0, new_ACKs := 0,
    packets_resent := 0 }

/-- Receiver-side state of sr.c: the static variables at lines 249-253.
In the C file the receiver declaration of windowfirst at line 252 is a
tentative definition of the same object as the sender one at line 61;
each claim below concerns a single call on a given state, so the field
is carried per side and quantified over all values. -/
structure ReceiverState where
  expectedseqnum : Int
  B_nextseqnum : Int
  buffer_b : List Pkt
  windowfirst : Int
  receivelast : Int
  packets_received : Int
deriving DecidableEq, Repr

/-- C strcmp equality on payload arrays viewed as NUL-terminated
strings: entries are compared until a 0 byte or the end of the array. -/
def cstrEq : List Int → List Int → Bool
  | [], [] => true
  | [], b :: _ => decide (b = 0)
  | a :: _, [] => decide (a = 0)
  | a :: as, b :: bs =>
    if a = b then (if a = 0 then true else cstrEq as bs) else false

/-- sr.c lines 278-287: the ACK packet B_input builds: seqnum NOTINUSE,
the given acknum, payload filled with the character 0 (byte 48), fresh
checksum. -/
def B_mkack (anum : Int) : Pkt :=
  let base : Pkt := { seqnum := NOTINUSE, acknum := anum, payload := List.replicate 20 48, checksum := 0 }
  { base with checksum := ComputeChecksum base }

/-- sr.c lines 320-326: count of leading receiver slots with
acknum >= 0 and a payload that is a nonempty C string. -/
def pckcountOf : List Pkt → Nat
  | [] => 0
  | p :: rest =>
    if 0 ≤ p.acknum ∧ cstrEq p.payload [] = false then pckcountOf rest + 1 else 0

/-- sr.c lines 332-336: in-place shift of the receiver buffer; slot i is
overwritten by slot i+pck only when i+pck <= receivelast+1 (the C loop
reads original values because writes stay strictly below the read
index; the read of buffer_b at index 6, out of bounds in C, is modelled
as a zero packet). -/
def bShift (buf : List Pkt) (pck : Nat) (receivelast : Int) : List Pkt :=
  (List.range buf.length).map (fun (i : Nat) =>
    if ((i : Int) + (pck : Int)) ≤ receivelast + 1 then buf.getD (i + pck) zeroPkt
    else buf.getD i zeroPkt)

/-- sr.c lines 257-343 (B_input).  The C guard at line 267 is
(!IsCorrupted(packet)) && (packet.seqnum == expectedseqnum); the C
operator ! tests for 0. -/
def B_input (s : ReceiverState) (packet : Pkt) : ReceiverState × SideEffects :=
  if IsCorrupted packet = 0 ∧ packet.seqnum = s.expectedseqnum then
    let s1 := { s with packets_received := s.packets_received + 1 }
    let sendpkt := B_mkack s1.expectedseqnum
    let seqfirst := s1.windowfirst
    let seqlast := (s1.windowfirst + WINDOWSIZE - 1) % SEQSPACE
    if inWindow seqfirst seqlast packet.seqnum then
      let index : Int :=
        if packet.seqnum ≥ seqfirst then packet.seqnum - seqfirst
        else WINDOWSIZE - seqfirst + packet.seqnum
      let s2 := { s1 with receivelast := max s1.receivelast index }
      if cstrEq ((s2.buffer_b.getD index.toNat zeroPkt).payload) packet.payload = false then
        let packet2 := { packet with acknum := packet.seqnum }
        let s3 := { s2 with buffer_b := s2.buffer_b.set index.toNat packet2 }
        if packet.seqnum = seqfirst then
          let pckcount := pckcountOf s3.buffer_b
          let s4 := { s3 with
              windowfirst := (s3.windowfirst + (pckcount : Int)) % SEQSPACE,
              buffer_b := bShift s3.buffer_b pckcount s3.receivelast }
          (s4, { sent3 := [sendpkt],
                 delivered5 := [packet.payload, packet.payload], timer := [] })
        else
          (s3, { sent3 := [sendpkt],
                 delivered5 := [packet.payload, packet.payload], timer := [] })
      else
        (s2, { sent3 := [sendpkt], delivered5 := [packet.payload], timer := [] })
    else
      (s1, { sent3 := [sendpkt], delivered5 := [packet.payload], timer := [] })
  else (s, noEffects)

/-- sr.c lines 347-351 (B_init) plus the zero initialization of the
remaining receiver statics. -/
def B_init : ReceiverState :=
  { expectedseqnum := 0, B_nextseqnum := 1,
    buffer_b := List.replicate 6 zeroPkt,
    windowfirst := 0, receivelast := 0, packets_received := 0 }

/-! Concrete scenario material used by the theorems below. -/

/-- A 20-byte application message, every byte 97. -/
def m97 : List Int := List.replicate 20 97

/-- A 20-byte payload whose first byte is nonzero (a nonempty C string,
distinct from a zeroed buffer slot). -/
def q1pay : List Int := 97 :: List.replicate 19 0

/-- A data packet with seqnum 0 whose stored checksum 0 differs from the
recomputed value 97: IsCorrupted returns 0 on it, so the guards of sr.c
treat it as processable. -/
def q1 : Pkt := { seqnum := 0, acknum := 0, payload := q1pay, checksum := 0 }

/-- The intact variant of q1: its checksum matches the recomputation. -/
def q0v : Pkt := { q1 with checksum := 97 }

/-- An intact but out-of-order data packet (seqnum 2). -/
def q2 : Pkt := { seqnum := 2, acknum := 0, payload := q1pay, checksum := 99 }

/-- An ACK packet for sequence number a whose checksum is off by one,
hence IsCorrupted returns 0 and the A_input guard lets it through. -/
def ackCorrupt (a : Int) : Pkt :=
  let base : Pkt := { seqnum := NOTINUSE, acknum := a, payload := List.replicate 20 48, checksum := 0 }
  { base with checksum := ComputeChecksum base + 1 }

/-- Sender state after one accepted submission from the initial state. -/
def sOne : SenderState := (A_output A_init m97).1

/-- Sender state after three accepted submissions from the initial
state: packets 0, 1, 2 outstanding in slots 0, 1, 2. -/
def cAs : SenderState := (A_output (A_output (A_output A_init m97).1 m97).1 m97).1

/-- cAs after A_input has processed ACKs for 1, 2 and then 0. -/
def cAr : SenderState :=
  (A_input (A_input (A_input cAs (ackCorrupt 1)).1 (ackCorrupt 2)).1 (ackCorrupt 0)).1

/-- The packet a full window based at b holds in slot i. -/
def c4pkt (b : Int) (i : Nat) : Pkt := A_mkpkt ((b + i) % SEQSPACE) m97

/-- A sender window based at b in which all six slots hold submitted,
not yet acknowledged packets (acknum NOTINUSE), as A_output stores
them. -/
def c4State (b : Int) : SenderState :=
  { buffer := [c4pkt b 0, c4pkt b 1, c4pkt b 2, c4pkt b 3, c4pkt b 4, c4pkt b 5],
    windowfirst := b, windowlast := -1, windowcount := 6,
    A_nextseqnum := (b + 6) % SEQSPACE, window_full := 0,
    total_ACKs_received := 0, new_ACKs := 0, packets_resent := 0 }

/-- c4State b after A_input processed the ACK for base+1. -/
def c4run1 (b : Int) : SenderState :=
  (A_input (c4State b) (ackCorrupt ((b + 1) % SEQSPACE))).1

/-- c4run1 b after A_input processed the ACK for base+2. -/
def c4run2 (b : Int) : SenderState :=
  (A_input (c4run1 b) (ackCorrupt ((b + 2) % SEQSPACE))).1

/-- c4run2 b after A_input processed the ACK for the base itself. -/
def c4run3 (b : Int) : SenderState :=
  (A_input (c4run2 b) (ackCorrupt b)).1

/-- A sender state whose next sequence number lies outside the window
[0, 5]. -/
def sFull : SenderState := { A_init with A_nextseqnum := 6 }

/-- A freshly checksummed data packet used as checksum witness. -/
def p9 : Pkt := A_mkpkt 3 m97

/-! Helper lemmas. -/

theorem foldl_add_eq (l : List Int) (a : Int) :
    l.foldl (fun x y => x + y) a = a + l.sum := by
  induction l generalizing a with
  | nil => simp
  | cons b t ih => simp [List.foldl_cons, ih, List.sum_cons]; ring

theorem computeChecksum_eq (p : Pkt) :
    ComputeChecksum p = p.seqnum + p.acknum + p.payload.sum := by
  unfold ComputeChecksum
  rw [foldl_add_eq]

theorem isCorrupted_valid_iff (p : Pkt) :
    IsCorrupted p = -1 ↔ p.checksum = ComputeChecksum p := by
  unfold IsCorrupted
  split
  · simp [*]
  · simp [*]

theorem paySum_set (l : List Int) (i : Nat) (v : Int) (h : i < l.length) :
    (l.set i v).sum = l.sum - l.get ⟨i, h⟩ + v := by
  induction l generalizing i with
  | nil => simp at h
  | cons a t ih =>
    cases i with
    | zero => simp [List.set, List.sum_cons]; ring
    | succ n =>
      have h2 : n < t.length := by simpa using h
      simp [List.set, List.sum_cons, ih n h2]
      ring

theorem slideCount_le (l : List Pkt) : slideCount l ≤ l.length := by
  induction l with
  | nil => simp [slideCount]
  | cons p t ih =>
    unfold slideCount
    split
    · simpa using ih
    · simp

theorem A_input_skip (s : SenderState) (p : Pkt) (hc : ¬ IsCorrupted p = 0) :
    A_input s p = (s, noEffects) := by
  unfold A_input
  rw [if_neg hc]

theorem A_input_outOfWindow (s : SenderState) (p : Pkt)
    (hc : IsCorrupted p = 0)
    (hw : ¬ inWindow s.windowfirst ((s.windowfirst + WINDOWSIZE - 1) % SEQSPACE) p.acknum) :
    A_input s p = ({ s with total_ACKs_received := s.total_ACKs_received + 1 }, noEffects) := by
  unfold A_input
  rw [if_pos hc]
  dsimp only
  rw [if_neg hw]

theorem A_input_processed (s : SenderState) (p : Pkt)
    (hc : IsCorrupted p = 0)
    (hw : inWindow s.windowfirst ((s.windowfirst + WINDOWSIZE - 1) % SEQSPACE) p.acknum) :
    A_input s p =
      ((A_slide (A_mark { s with total_ACKs_received := s.total_ACKs_received + 1 } p)).1,
       { sent3 := [], delivered5 := [],
         timer := (A_slide (A_mark { s with total_ACKs_received := s.total_ACKs_received + 1 } p)).2 }) := by
  unfold A_input
  rw [if_pos hc]
  dsimp only
  rw [if_pos hw]

theorem A_mark_windowfirst (s : SenderState) (p : Pkt) :
    (A_mark s p).windowfirst = s.windowfirst := by
  unfold A_mark
  dsimp only
  split <;> rfl

theorem A_mark_length (s : SenderState) (p : Pkt) :
    (A_mark s p).buffer.length = s.buffer.length := by
  unfold A_mark
  dsimp only
  split
  · simp [List.length_set]
  · rfl

theorem A_slide_pos (s : SenderState) (h : 0 < slideCount s.buffer) :
    A_slide s =
      ({ s with
          windowfirst := (s.windowfirst + (slideCount s.buffer : Int)) % SEQSPACE,
          buffer := slideBuffer s.buffer (slideCount s.buffer) },
       TimerEv.tstop :: (if 0 < s.windowcount then [TimerEv.tstart] else [])) := by
  unfold A_slide
  dsimp only
  rw [if_pos h]

theorem A_slide_zero (s : SenderState) (h : ¬ 0 < slideCount s.buffer) :
    A_slide s = (s, []) := by
  unfold A_slide
  dsimp only
  rw [if_neg h]

/-- C5: on timer expiry with outstanding packets, A_timerinterrupt hands
exactly the packet stored at window slot 0 to the channel and nothing
else, increments packets_resent by one, and restarts the timer
unconditionally within that branch. -/
theorem c5_timeout_resends_base (s : SenderState) (h : 0 < s.windowcount) :
    A_timerinterrupt s =
      ({ s with packets_resent := s.packets_resent + 1 },
       { sent3 := [s.buffer.getD 0 zeroPkt], delivered5 := [],
         timer := [TimerEv.tstart] }) := by
  unfold A_timerinterrupt
  rw [if_pos h]

theorem c5_timeout_resends_base_witness :
    0 < (c4State 0).windowcount ∧
    A_timerinterrupt (c4State 0) =
      ({ c4State 0 with packets_resent := 1 },
       { sent3 := [c4pkt 0 0], delivered5 := [], timer := [TimerEv.tstart] }) := by
  refine ⟨by decide, ?_⟩
  rw [c5_timeout_resends_base (c4State 0) (by decide)]
  decide

/-- C6: when A_nextseqnum is outside the cyclic sender window, A_output
only increments window_full; every other state component is untouched
and nothing is sent or timed. -/
theorem c6_window_full_reject (s : SenderState) (m : List Int)
    (h : ¬ inWindow s.windowfirst ((s.windowfirst + WINDOWSIZE - 1) % SEQSPACE) s.A_nextseqnum) :
    A_output s m = ({ s with window_full := s.window_full + 1 }, noEffects) := by
  unfold A_output
  dsimp only
  rw [if_neg h]

theorem c6_window_full_reject_witness :
    (¬ inWindow sFull.windowfirst ((sFull.windowfirst + WINDOWSIZE - 1) % SEQSPACE) sFull.A_nextseqnum) ∧
    A_output sFull m97 = ({ sFull with window_full := 1 }, noEffects) := by
  refine ⟨by decide, ?_⟩
  rw [c6_window_full_reject sFull m97 (by decide)]
  decide

/-- C10: when the timer fires with windowcount zero, A_timerinterrupt is
a no-op - no packet sent, packets_resent unchanged, no timer restart. -/
theorem c10_timeout_empty_noop (s : SenderState) (h : s.windowcount = 0) :
    A_timerinterrupt s = (s, noEffects) := by
  unfold A_timerinterrupt
  rw [if_neg (by omega)]

theorem c10_timeout_empty_noop_witness :
    A_init.windowcount = 0 ∧ A_timerinterrupt A_init = (A_init, noEffects) :=
  ⟨by decide, c10_timeout_empty_noop A_init (by decide)⟩

/-- C8: the configuration of sr.c violates the claim: SEQSPACE is 7,
exactly WINDOWSIZE + 1 and below 2 * WINDOWSIZE, and A_init performs no
validation - it completes normally with an ordinary initial state. -/
theorem c8_seqspace_code_bug :
    SEQSPACE = WINDOWSIZE + 1 ∧ ¬ (2 * WINDOWSIZE ≤ SEQSPACE) ∧
    A_init.windowfirst = 0 ∧ A_init.windowcount = 0 ∧ A_init.A_nextseqnum = 0 := by
  decide

/-- C7: the timer is started by A_output exactly when the submission is
accepted and the window was empty (outstanding count becomes 1); and
A_input issues timer commands exactly when the base slides, in which
case it stops the timer and then restarts it if and only if the
outstanding count is still positive. -/
theorem c7_timer_discipline :
    (∀ (s : SenderState) (m : List Int),
      (A_output s m).2.timer =
        if inWindow s.windowfirst ((s.windowfirst + WINDOWSIZE - 1) % SEQSPACE) s.A_nextseqnum
            ∧ s.windowcount = 0
        then [TimerEv.tstart] else []) ∧
    (∀ (s : SenderState) (p : Pkt),
      s.buffer.length = 6 → 0 ≤ s.windowfirst → s.windowfirst < SEQSPACE →
      ((A_input s p).1.windowfirst = s.windowfirst → (A_input s p).2.timer = []) ∧
      ((A_input s p).1.windowfirst ≠ s.windowfirst →
        (A_input s p).2.timer =
          TimerEv.tstop :: (if 0 < (A_input s p).1.windowcount then [TimerEv.tstart] else []))) := by
  constructor
  · intro s m
    by_cases hw : inWindow s.windowfirst ((s.windowfirst + WINDOWSIZE - 1) % SEQSPACE) s.A_nextseqnum
    · unfold A_output
      dsimp only
      rw [if_pos hw]
      dsimp only
      by_cases hz : s.windowcount = 0
      · rw [if_pos (show s.windowcount + 1 = 1 by omega), if_pos ⟨hw, hz⟩]
      · rw [if_neg (show ¬ s.windowcount + 1 = 1 by omega), if_neg (fun h => hz h.2)]
    · unfold A_output
      dsimp only
      rw [if_neg hw, if_neg (fun h => hw h.1)]
      rfl
  · intro s p hlen h0 h7
    simp only [SEQSPACE] at h7
    by_cases hc : IsCorrupted p = 0
    · by_cases hw : inWindow s.windowfirst ((s.windowfirst + WINDOWSIZE - 1) % SEQSPACE) p.acknum
      · rw [A_input_processed s p hc hw]
        set s2 := A_mark { s with total_ACKs_received := s.total_ACKs_received + 1 } p with hs2
        have hwf2 : s2.windowfirst = s.windowfirst := A_mark_windowfirst _ _
        have hlen2 : s2.buffer.length = 6 := by rw [A_mark_length]; exact hlen
        by_cases hk : 0 < slideCount s2.buffer
        · rw [A_slide_pos s2 hk]
          dsimp only
          have h1 : (1 : Int) ≤ (slideCount s2.buffer : Int) := by exact_mod_cast hk
          have h6 : (slideCount s2.buffer : Int) ≤ 6 := by
            have hle := slideCount_le s2.buffer
            rw [hlen2] at hle
            exact_mod_cast hle
          constructor
          · intro heq
            exfalso
            rw [hwf2] at heq
            simp only [SEQSPACE] at heq
            omega
          · intro _
            rfl
        · rw [A_slide_zero s2 hk]
          dsimp only
          exact ⟨fun _ => rfl, fun hne => absurd hwf2 hne⟩
      · rw [A_input_outOfWindow s p hc hw]
        exact ⟨fun _ => rfl, fun hne => absurd rfl hne⟩
    · rw [A_input_skip s p hc]
      exact ⟨fun _ => rfl, fun hne => absurd rfl hne⟩

theorem c7_timer_discipline_witness :
    (A_output A_init m97).2.timer = [TimerEv.tstart] ∧
    (A_input A_init (ackCorrupt 1)).2.timer = [TimerEv.tstop] := by
  constructor
  · rw [c7_timer_discipline.1 A_init m97]
    decide
  · have h := (c7_timer_discipline.2 A_init (ackCorrupt 1)
      (by decide) (by decide) (by decide)).2 (by decide)
    rw [h]
    decide

/-- C9: ComputeChecksum is seqnum + acknum + the payload byte sum; every
packet freshly checksummed at construction (the A_output data packet
and the receiver ACK builder) passes the validity check, and changing
any single one of seqnum, acknum or one payload byte to a different
value makes the check fail. -/
theorem c9_checksum :
    (∀ p : Pkt, ComputeChecksum p = p.seqnum + p.acknum + p.payload.sum) ∧
    (∀ (seq : Int) (data : List Int), IsCorrupted (A_mkpkt seq data) = -1) ∧
    (∀ anum : Int, IsCorrupted (B_mkack anum) = -1) ∧
    (∀ p : Pkt, IsCorrupted p = -1 →
      (∀ v : Int, v ≠ p.seqnum → IsCorrupted { p with seqnum := v } = 0) ∧
      (∀ v : Int, v ≠ p.acknum → IsCorrupted { p with acknum := v } = 0) ∧
      (∀ (i : Nat) (hi : i < p.payload.length) (v : Int),
        v ≠ p.payload.get ⟨i, hi⟩ →
        IsCorrupted { p with payload := p.payload.set i v } = 0)) := by
  refine ⟨computeChecksum_eq, ?_, ?_, ?_⟩
  · intro seq data
    unfold IsCorrupted
    exact if_pos rfl
  · intro anum
    unfold IsCorrupted
    exact if_pos rfl
  · intro p hval
    have hsum : p.checksum = p.seqnum + p.acknum + p.payload.sum := by
      rw [(isCorrupted_valid_iff p).1 hval, computeChecksum_eq]
    refine ⟨?_, ?_, ?_⟩
    · intro v hv
      unfold IsCorrupted
      rw [if_neg]
      rw [computeChecksum_eq]
      dsimp only
      intro h
      apply hv
      omega
    · intro v hv
      unfold IsCorrupted
      rw [if_neg]
      rw [computeChecksum_eq]
      dsimp only
      intro h
      apply hv
      omega
    · intro i hi v hv
      have hset : (p.payload.set i v).sum = p.payload.sum - p.payload.get ⟨i, hi⟩ + v :=
        paySum_set _ _ _ hi
      unfold IsCorrupted
      rw [if_neg]
      rw [computeChecksum_eq]
      dsimp only
      rw [hset]
      intro h
      apply hv
      omega

theorem c9_checksum_witness :
    ComputeChecksum p9 = p9.seqnum + p9.acknum + p9.payload.sum ∧
    IsCorrupted p9 = -1 ∧
    IsCorrupted (B_mkack 2) = -1 ∧
    IsCorrupted { p9 with seqnum := 5 } = 0 ∧
    IsCorrupted { p9 with acknum := 0 } = 0 ∧
    IsCorrupted { p9 with payload := p9.payload.set 0 1 } = 0 := by
  have h := c9_checksum
  refine ⟨h.1 p9, h.2.1 3 m97, h.2.2.1 2, ?_, ?_, ?_⟩
  · exact (h.2.2.2 p9 (by decide)).1 5 (by decide)
  · exact (h.2.2.2 p9 (by decide)).2.1 0 (by decide)
  · exact (h.2.2.2 p9 (by decide)).2.2 0 (of_decide_eq_true rfl) 1 (of_decide_eq_true rfl)

/-- C1: refuted on sr.c. A single B_input call on the initial receiver
state with the in-order packet q1 (which the inverted corruption guard
lets through) hands the same payload to tolayer5 twice, at sr.c lines
274 and 339; the intact variant q0v of the same packet is never
delivered at all. -/
theorem c1_delivery_code_bug :
    (B_input B_init q1).2.delivered5 = [q1pay, q1pay] ∧
    (B_input B_init q0v).2.delivered5 = [] := by
  decide

/-- C2: refuted on sr.c. Both receiving sides test the C expression
!IsCorrupted(packet), but IsCorrupted returns -1 for an intact packet
and 0 for a corrupted one, so the guard is inverted: a corrupted
in-window ACK mutates sender state (counter, mark, slide), an intact
ACK is the one silently discarded, and a corrupted in-order data packet
makes the receiver send an ACK. -/
theorem c2_corruption_code_bug :
    IsCorrupted (ackCorrupt 0) = 0 ∧
    (A_input sOne (ackCorrupt 0)).1.total_ACKs_received = sOne.total_ACKs_received + 1 ∧
    (A_input sOne (ackCorrupt 0)).1.windowfirst = 6 ∧
    IsCorrupted (B_mkack 0) = -1 ∧
    A_input sOne (B_mkack 0) = (sOne, noEffects) ∧
    IsCorrupted q1 = 0 ∧
    (B_input B_init q1).2.sent3 = [B_mkack 0] := by
  decide

/-- C3: refuted on sr.c. A checksum-correct data packet never produces
an ACK - the in-order intact packet q0v and the out-of-order intact
packet q2 both leave B_input without any effect - and the one ACK the
code does send (for a corrupted in-order packet such as q1) carries
acknum = expectedseqnum, the delivery cursor. -/
theorem c3_ack_code_bug :
    IsCorrupted q0v = -1 ∧ B_input B_init q0v = (B_init, noEffects) ∧
    IsCorrupted q2 = -1 ∧ B_input B_init q2 = (B_init, noEffects) ∧
    (B_input B_init q1).2.sent3 = [B_mkack 0] ∧
    (B_mkack 0).acknum = B_init.expectedseqnum := by
  decide

/-- C4 counterexample: the claim as stated fails on sr.c at concrete
inputs.  First, starting from A_init and three accepted submissions
(packets 0, 1, 2), processing ACKs 1, 2 and then 0 makes windowfirst
jump to 6 rather than advancing by the three acknowledged packets to 3:
the zero-initialized, never-sent slots 3..5 carry acknum 0, which the
slide scan counts as acknowledged.  Second, for a full window based at
windowfirst = 6, processing the single ACK for base+1 (sequence number
0) already slides the window to 0: the wrapped-case buffer index
WINDOWSIZE - (seqfirst - acknum) is off by one and marks the base
slot. -/
theorem c4_slide_counterexample :
    (cAr.windowfirst = 6 ∧ ¬ cAr.windowfirst = (0 + 3) % SEQSPACE) ∧
    ((c4run1 6).windowfirst = 0 ∧ ¬ (c4run1 6).windowfirst = 6) := by
  decide

/-- C4 amended: for a window base b with b + 2 < SEQSPACE (so the three
sequence numbers involved do not wrap) and every one of the six slots
holding a submitted, unacknowledged packet, the claim holds: ACKs for
base+1 and base+2 leave windowfirst unchanged; the ACK for the base
then advances windowfirst by the full contiguous marked prefix, three,
in one step, shifting the buffer left by three and clearing the vacated
trailing slots to acknum NOTINUSE. -/
theorem c4_slide_amended : ∀ b : Fin 5,
    (c4run1 ((b : Nat) : Int)).windowfirst = ((b : Nat) : Int) ∧
    (c4run2 ((b : Nat) : Int)).windowfirst = ((b : Nat) : Int) ∧
    (c4run3 ((b : Nat) : Int)).windowfirst = (((b : Nat) : Int) + 3) % SEQSPACE ∧
    (c4run3 ((b : Nat) : Int)).buffer =
      [c4pkt ((b : Nat) : Int) 3, c4pkt ((b : Nat) : Int) 4, c4pkt ((b : Nat) : Int) 5,
       clearSlot (c4pkt ((b : Nat) : Int) 3), clearSlot (c4pkt ((b : Nat) : Int) 4),
       clearSlot (c4pkt ((b : Nat) : Int) 5)] ∧
    (c4run3 ((b : Nat) : Int)).windowcount = 3 := by
  decide
